import Mathlib

/-!
Shallow embedding of `src/freecad-to-png.py`.

The script is linear: parse arguments, resolve the output path, check that
the input file exists, warn on a wrong extension, create the output
directory, attempt the FreeCAD module load, and inside a try block
show the main window, open the document, restore the standard streams,
fetch the active view, fit it and save the image.

We model a run as a trace of observable events produced from an
environment that fixes which filesystem paths exist and which of the
host-application calls raise an exception.  Python's `os.path` helpers
(`basename`, `splitext`, `dirname`, `join`) are embedded faithfully from
the CPython `posixpath` implementations on character lists.
-/

namespace FreecadToPng

/-- A stream value held by `sys.stdout` / `sys.stderr`: either the original
process stream, or the in-memory `io.StringIO` buffer installed in quiet
mode. -/
inductive StreamV
  | orig
  | buf
deriving DecidableEq, Repr

/-- The pair (`sys.stdout`, `sys.stderr`) at a moment of the run. -/
structure Streams where
  out : StreamV
  err : StreamV
deriving DecidableEq, Repr

/-- The original (pre-redirection) stream pair. -/
def origStreams : Streams := ⟨StreamV.orig, StreamV.orig⟩

/-- Observable events of one run of the script. `printEv` records the
stream state at the moment of the `print` call, whether the call targeted
`sys.stderr`, and the message. The host-application API calls
(`showMainWindowEv`, `openDocumentEv`, `activeViewEv`, `fitAllEv`,
`saveImageEv`) record the call and its arguments; `makedirsEv` records
`os.makedirs`; `importModsEv` records the attempt to import the FreeCAD
modules; `redirectEv` / `restoreEv` record the assignments that replace
the standard streams by buffers, resp. put back the originals. -/
inductive Ev
  | printEv (st : Streams) (toStderr : Bool) (msg : String)
  | makedirsEv (dir : String)
  | importModsEv
  | showMainWindowEv
  | openDocumentEv (path : String)
  | activeViewEv
  | fitAllEv
  | saveImageEv (path : String) (w : Nat) (h : Nat) (bg : String)
  | redirectEv
  | restoreEv
deriving DecidableEq, Repr

/-- The environment of a run: which paths exist on the filesystem when the
script starts, and, for the FreeCAD import and each host API call, whether
it raises (`some` exception text) or succeeds (`none`). -/
structure Env where
  fsPaths : List String
  importErr : Option String
  showErr : Option String
  openErr : Option String
  viewErr : Option String
  fitErr : Option String
  saveErr : Option String
deriving DecidableEq, Repr

/-- `os.path.exists` against the environment's filesystem. -/
def pathExists (env : Env) (p : String) : Prop := p ∈ env.fsPaths

instance (env : Env) (p : String) : Decidable (pathExists env p) :=
  inferInstanceAs (Decidable (p ∈ env.fsPaths))

/-- Split a character list at the first occurrence of `t`:
`breakAtChar t l = some (pre, post)` with `l = pre ++ t :: post` and
`t ∉ pre`, or `none` when `t ∉ l`. -/
def breakAtChar (t : Char) : List Char → Option (List Char × List Char)
  | [] => none
  | c :: cs =>
    if c = t then some ([], cs)
    else
      match breakAtChar t cs with
      | none => none
      | some p => some (c :: p.1, p.2)

/-- `os.path.basename` (posixpath): everything after the last `'/'`.
CPython: `i = p.rfind('/') + 1; return p[i:]`. -/
def basenameAux : List Char → List Char → List Char
  | [], acc => acc.reverse
  | c :: cs, acc => if c = '/' then basenameAux cs [] else basenameAux cs (c :: acc)

/-- `os.path.basename` on strings. -/
def basename (s : String) : String := String.mk (basenameAux s.data [])

/-- `os.path.splitext` (posixpath / `genericpath._splitext` with
`sep = '/'`, `extsep = '.'`): the extension starts at the last dot,
provided that dot lies after the last separator and at least one non-dot
character stands between the separator and that dot.  We compute on the
reversed character list: the first `'.'` of the reverse is the last dot of
the string. -/
def splitext (s : String) : String × String :=
  match breakAtChar '.' s.data.reverse with
  | none => (s, "")
  | some p =>
    if p.1.contains '/' then (s, "")
    else if (p.2.takeWhile (fun c => c ≠ '/')).any (fun c => c ≠ '.') then
      (String.mk p.2.reverse, String.mk ('.' :: p.1.reverse))
    else (s, "")

/-- `os.path.dirname` (posixpath): `i = p.rfind('/') + 1; head = p[:i];`
then strip trailing slashes unless `head` is all slashes. -/
def dirname (p : String) : String :=
  match breakAtChar '/' p.data.reverse with
  | none => ""
  | some q =>
    let headRev := '/' :: q.2
    if headRev.all (fun c => c = '/') then String.mk headRev.reverse
    else String.mk ((headRev.dropWhile (fun c => c = '/')).reverse)

/-- `os.path.join a b` (posixpath, two arguments): `b` if `b` is absolute;
otherwise `a ++ b` when `a` is empty or ends in `'/'`, else
`a ++ "/" ++ b`. -/
def pjoin (a b : String) : String :=
  if b.data.head? = some '/' then b
  else if a.data = [] ∨ a.data.getLast? = some '/' then a ++ b
  else a ++ "/" ++ b

/-- Python `str.lower` (ASCII case folding, which is all the script's
`.fcstd` comparison needs). -/
def strLower (s : String) : String := String.mk (s.data.map Char.toLower)

/-- `args.input_file.lower().endswith('.fcstd')`. -/
def hasFcstdExt (s : String) : Bool :=
  ".fcstd".data.isSuffixOf (strLower s).data

/-- The command line as handed to `parse_arguments` by `argparse`:
the positional `input_file`, the optional `-o` / `--output`, the two
FreeCAD path options and the `-q` / `--quiet` flag. -/
structure RawArgs where
  input_file : String
  output : Option String
  freecad_lib_path : String
  freecad_mod_path : String
  quiet : Bool
deriving DecidableEq, Repr

/-- The arguments after `parse_arguments`' post-processing: `output` is
resolved. -/
structure Args where
  input_file : String
  output : String
  freecad_lib_path : String
  freecad_mod_path : String
  quiet : Bool
deriving DecidableEq, Repr

/-- `parse_arguments`: when `-o` / `--output` is omitted, the output defaults
to `os.path.join('production', f'{input_name}.png')` where `input_name`
is `os.path.splitext(os.path.basename(args.input_file))[0]`. -/
def parse_arguments (r : RawArgs) : Args :=
  let out : String :=
    match r.output with
    | some o => o
    | none => pjoin "production" ((splitext (basename r.input_file)).1 ++ ".png")
  { input_file := r.input_file
    output := out
    freecad_lib_path := r.freecad_lib_path
    freecad_mod_path := r.freecad_mod_path
    quiet := r.quiet }

/-- Events of the extension check (source lines 93-95): a warning print
when the input lacks the `.FCStd` extension. -/
def warnEvs (args : Args) : List Ev :=
  if hasFcstdExt args.input_file then []
  else
    [Ev.printEv origStreams false
      ("Warning: Input file '" ++ args.input_file ++ "' does not have .FCStd extension.")]

/-- Events of the directory-creation section (source lines 97-100):
`os.makedirs(output_dir)` when `output_dir` is non-empty and does not
exist. -/
def mkdirEvs (env : Env) (output_dir : String) : List Ev :=
  if output_dir ≠ "" ∧ ¬ pathExists env output_dir then [Ev.makedirsEv output_dir]
  else []

/-- Events of the warning and directory-creation section (source lines
93-100), with `output_dir = os.path.dirname(args.output)`. -/
def checksEvs (env : Env) (args : Args) : List Ev :=
  warnEvs args ++ mkdirEvs env (dirname args.output)

/-- The stream-redirection events of the quiet branch (source lines
120-123): in quiet mode both standard streams are replaced by `StringIO`
buffers. -/
def redirEvs (quiet : Bool) : List Ev :=
  if quiet then [Ev.redirectEv] else []

/-- The body of `main` after argument parsing, returning the event trace
and the exit code.  Mirrors `src/freecad-to-png.py` lines 89-151; the call
`setup_freecad_paths(args.freecad_lib_path, args.freecad_mod_path)` is
commented out in the source (line 103), so no event of it appears. -/
def pyMain (env : Env) (args : Args) : List Ev × Nat :=
  if ¬ pathExists env args.input_file then
    ([Ev.printEv origStreams true
        ("Error: Input file '" ++ args.input_file ++ "' does not exist.")], 1)
  else
    let pre := checksEvs env args ++ [Ev.importModsEv]
    match env.importErr with
    | some e =>
      (pre ++
        [Ev.printEv origStreams true ("Error: Could not import FreeCAD modules: " ++ e),
         Ev.printEv origStreams true "Please ensure FreeCAD is installed and paths are correct."], 1)
    | none =>
      -- try block: origStdout/origStderr are saved (both `orig` here), then
      -- in quiet mode both streams are replaced by StringIO buffers.
      match env.showErr with
      | some e =>
        (pre ++ redirEvs args.quiet ++
          [Ev.showMainWindowEv, Ev.restoreEv,
           Ev.printEv origStreams true ("Error processing file: " ++ e)], 1)
      | none =>
      match env.openErr with
      | some e =>
        (pre ++ redirEvs args.quiet ++
          [Ev.showMainWindowEv, Ev.openDocumentEv args.input_file, Ev.restoreEv,
           Ev.printEv origStreams true ("Error processing file: " ++ e)], 1)
      | none =>
        -- success of the loading phase: the source restores the streams
        -- right after openDocument, before FreeCADGui.activeView().
        let loaded := pre ++ redirEvs args.quiet ++
          [Ev.showMainWindowEv, Ev.openDocumentEv args.input_file, Ev.restoreEv]
        match env.viewErr with
        | some e =>
          (loaded ++
            [Ev.activeViewEv, Ev.restoreEv,
             Ev.printEv origStreams true ("Error processing file: " ++ e)], 1)
        | none =>
        match env.fitErr with
        | some e =>
          (loaded ++
            [Ev.activeViewEv, Ev.fitAllEv, Ev.restoreEv,
             Ev.printEv origStreams true ("Error processing file: " ++ e)], 1)
        | none =>
        match env.saveErr with
        | some e =>
          (loaded ++
            [Ev.activeViewEv, Ev.fitAllEv,
             Ev.saveImageEv args.output 1080 1080 "Transparent", Ev.restoreEv,
             Ev.printEv origStreams true ("Error processing file: " ++ e)], 1)
        | none =>
          (loaded ++
            [Ev.activeViewEv, Ev.fitAllEv,
             Ev.saveImageEv args.output 1080 1080 "Transparent",
             Ev.printEv origStreams false
               ("Successfully saved screenshot to: " ++ args.output)], 0)

/-- One whole invocation of the script: `parse_arguments` then `main`'s
body. -/
def runScript (env : Env) (r : RawArgs) : List Ev × Nat :=
  pyMain env (parse_arguments r)

/-- The try block raised: some host call failed after a successful module
load. -/
def tryRaises (env : Env) : Prop :=
  env.showErr ≠ none ∨ env.openErr ≠ none ∨ env.viewErr ≠ none ∨
    env.fitErr ≠ none ∨ env.saveErr ≠ none

/-! ### Helper lemmas about the path functions -/

theorem breakAtChar_append (t : Char) :
    ∀ (l pre post : List Char), breakAtChar t l = some (pre, post) →
      pre ++ t :: post = l := by
  intro l
  induction l with
  | nil => intro pre post h; simp [breakAtChar] at h
  | cons c cs ih =>
    intro pre post h
    by_cases hc : c = t
    · simp [breakAtChar, hc] at h
      obtain ⟨h1, h2⟩ := h
      subst h1
      subst h2
      simp [hc]
    · rw [breakAtChar, if_neg hc] at h
      cases hb : breakAtChar t cs with
      | none => rw [hb] at h; simp at h
      | some p =>
        rw [hb] at h
        simp at h
        obtain ⟨h1, h2⟩ := h
        subst h1
        subst h2
        have := ih p.1 p.2 (by rw [hb])
        simp [this]

theorem basenameAux_no_slash :
    ∀ (cs acc : List Char), '/' ∉ acc → '/' ∉ basenameAux cs acc := by
  intro cs
  induction cs with
  | nil =>
    intro acc h
    rw [basenameAux]
    intro hm
    exact h (List.mem_reverse.mp hm)
  | cons c cs ih =>
    intro acc h
    by_cases hc : c = '/'
    · rw [basenameAux, if_pos hc]
      exact ih [] (by simp)
    · rw [basenameAux, if_neg hc]
      refine ih (c :: acc) ?_
      intro hm
      rcases List.mem_cons.mp hm with h1 | h2
      · exact hc h1.symm
      · exact h h2

theorem basename_no_slash (s : String) : '/' ∉ (basename s).data :=
  basenameAux_no_slash s.data [] (by simp)

theorem splitext_fst_no_slash (s : String) (h : '/' ∉ s.data) :
    '/' ∉ ((splitext s).1).data := by
  unfold splitext
  split
  · exact h
  next p hb =>
    split
    · exact h
    · split
      · intro hm
        have hp2 : '/' ∈ p.2 := List.mem_reverse.mp hm
        have happ := breakAtChar_append '.' s.data.reverse p.1 p.2 (by rw [hb])
        have hrev : '/' ∈ s.data.reverse := by
          rw [← happ]
          exact List.mem_append.mpr (Or.inr (List.mem_cons.mpr (Or.inr hp2)))
        exact h (List.mem_reverse.mp hrev)
      · exact h

theorem pjoin_production (b : String) (hb : b.data.head? ≠ some '/') :
    pjoin "production" b = "production/" ++ b := by
  unfold pjoin
  rw [if_neg hb, if_neg (by decide)]
  have : "production" ++ "/" = "production/" := by decide
  rw [← this, String.append_assoc]

/-! ### Shape lemmas about the trace sections -/

theorem warnEvs_shape (a : Args) (ev : Ev) (h : ev ∈ warnEvs a) :
    ∃ msg, ev = Ev.printEv origStreams false msg := by
  unfold warnEvs at h
  split at h
  · simp at h
  · simp at h
    exact ⟨_, h⟩

theorem mkdirEvs_shape (env : Env) (d : String) (ev : Ev) (h : ev ∈ mkdirEvs env d) :
    ev = Ev.makedirsEv d := by
  unfold mkdirEvs at h
  split at h <;> simp at h
  exact h

theorem checksEvs_shape (env : Env) (a : Args) (ev : Ev) (h : ev ∈ checksEvs env a) :
    (∃ msg, ev = Ev.printEv origStreams false msg) ∨
      (∃ d, ev = Ev.makedirsEv d) := by
  rcases List.mem_append.mp h with h1 | h2
  · exact Or.inl (warnEvs_shape a ev h1)
  · exact Or.inr ⟨_, mkdirEvs_shape env _ ev h2⟩

theorem redirEvs_shape (q : Bool) (ev : Ev) (h : ev ∈ redirEvs q) :
    ev = Ev.redirectEv := by
  unfold redirEvs at h
  split at h <;> simp at h
  exact h

theorem mkdirEvs_empty_dir (env : Env) : mkdirEvs env "" = [] := by
  unfold mkdirEvs
  rw [if_neg]
  intro hc
  exact hc.1 rfl

theorem checksEvs_with_dir (env : Env) (a : Args)
    (hd : dirname a.output ≠ "") (hnex : ¬ pathExists env (dirname a.output)) :
    checksEvs env a = warnEvs a ++ [Ev.makedirsEv (dirname a.output)] := by
  unfold checksEvs mkdirEvs
  rw [if_pos ⟨hd, hnex⟩]

theorem pyMain_not_exists (env : Env) (a : Args)
    (h : ¬ pathExists env a.input_file) :
    pyMain env a =
      ([Ev.printEv origStreams true
          ("Error: Input file '" ++ a.input_file ++ "' does not exist.")], 1) := by
  unfold pyMain
  rw [if_pos h]

theorem pyMain_trace_split (env : Env) (a : Args)
    (hin : pathExists env a.input_file) :
    ∃ k, (pyMain env a).1 = checksEvs env a ++ Ev.importModsEv :: k ∧
      ∀ d, Ev.makedirsEv d ∉ k := by
  have hin' : ¬¬ pathExists env a.input_file := not_not_intro hin
  unfold pyMain
  cases hi : env.importErr with
  | some e =>
    refine ⟨[Ev.printEv origStreams true
              ("Error: Could not import FreeCAD modules: " ++ e),
             Ev.printEv origStreams true
              "Please ensure FreeCAD is installed and paths are correct."], ?_, ?_⟩
    · rw [if_neg hin']
      simp [List.append_assoc]
    · intro d hd
      simp at hd
  | none =>
    cases hs : env.showErr with
    | some e =>
      refine ⟨redirEvs a.quiet ++
        [Ev.showMainWindowEv, Ev.restoreEv,
         Ev.printEv origStreams true ("Error processing file: " ++ e)], ?_, ?_⟩
      · rw [if_neg hin']
        simp [List.append_assoc]
      · intro d hd
        rcases List.mem_append.mp hd with h | h
        · have := redirEvs_shape _ _ h
          simp at this
        · simp at h
    | none =>
      cases ho : env.openErr with
      | some e =>
        refine ⟨redirEvs a.quiet ++
          [Ev.showMainWindowEv, Ev.openDocumentEv a.input_file, Ev.restoreEv,
           Ev.printEv origStreams true ("Error processing file: " ++ e)], ?_, ?_⟩
        · rw [if_neg hin']
          simp [List.append_assoc]
        · intro d hd
          rcases List.mem_append.mp hd with h | h
          · have := redirEvs_shape _ _ h
            simp at this
          · simp at h
      | none =>
        cases hv : env.viewErr with
        | some e =>
          refine ⟨redirEvs a.quiet ++
            [Ev.showMainWindowEv, Ev.openDocumentEv a.input_file, Ev.restoreEv,
             Ev.activeViewEv, Ev.restoreEv,
             Ev.printEv origStreams true ("Error processing file: " ++ e)], ?_, ?_⟩
          · rw [if_neg hin']
            simp [List.append_assoc]
          · intro d hd
            rcases List.mem_append.mp hd with h | h
            · have := redirEvs_shape _ _ h
              simp at this
            · simp at h
        | none =>
          cases hf : env.fitErr with
          | some e =>
            refine ⟨redirEvs a.quiet ++
              [Ev.showMainWindowEv, Ev.openDocumentEv a.input_file, Ev.restoreEv,
               Ev.activeViewEv, Ev.fitAllEv, Ev.restoreEv,
               Ev.printEv origStreams true ("Error processing file: " ++ e)], ?_, ?_⟩
            · rw [if_neg hin']
              simp [List.append_assoc]
            · intro d hd
              rcases List.mem_append.mp hd with h | h
              · have := redirEvs_shape _ _ h
                simp at this
              · simp at h
          | none =>
            cases hsv : env.saveErr with
            | some e =>
              refine ⟨redirEvs a.quiet ++
                [Ev.showMainWindowEv, Ev.openDocumentEv a.input_file, Ev.restoreEv,
                 Ev.activeViewEv, Ev.fitAllEv,
                 Ev.saveImageEv a.output 1080 1080 "Transparent", Ev.restoreEv,
                 Ev.printEv origStreams true ("Error processing file: " ++ e)], ?_, ?_⟩
              · rw [if_neg hin']
                simp [List.append_assoc]
              · intro d hd
                rcases List.mem_append.mp hd with h | h
                · have := redirEvs_shape _ _ h
                  simp at this
                · simp at h
            | none =>
              refine ⟨redirEvs a.quiet ++
                [Ev.showMainWindowEv, Ev.openDocumentEv a.input_file, Ev.restoreEv,
                 Ev.activeViewEv, Ev.fitAllEv,
                 Ev.saveImageEv a.output 1080 1080 "Transparent",
                 Ev.printEv origStreams false
                   ("Successfully saved screenshot to: " ++ a.output)], ?_, ?_⟩
              · rw [if_neg hin']
                simp [List.append_assoc]
              · intro d hd
                rcases List.mem_append.mp hd with h | h
                · have := redirEvs_shape _ _ h
                  simp at this
                · simp at h

/-! ### Claim theorems -/

/-- C3: for every invocation in which the `-o` / `--output` option is
omitted, the resolved output path equals the join of the directory
`production` with `<stem>.png`, where `<stem>` is the basename of the
`input_file` argument with its final extension removed
(`os.path.splitext` applied to `os.path.basename`). -/
theorem default_output_path (i l m : String) (q : Bool) :
    (parse_arguments ⟨i, none, l, m, q⟩).output =
      "production/" ++ ((splitext (basename i)).1 ++ ".png") := by
  show pjoin "production" ((splitext (basename i)).1 ++ ".png") = _
  apply pjoin_production
  have hns : '/' ∉ ((splitext (basename i)).1).data :=
    splitext_fst_no_slash _ (basename_no_slash i)
  have hdata : ((splitext (basename i)).1 ++ ".png").data
      = ((splitext (basename i)).1).data ++ ".png".data := rfl
  rw [hdata]
  cases hsd : ((splitext (basename i)).1).data with
  | nil => decide
  | cons c cs =>
    simp only [List.cons_append, List.head?_cons, ne_eq, Option.some.injEq]
    intro hc
    subst hc
    rw [hsd] at hns
    exact hns (List.mem_cons_self _ _)

/-- C4: for every invocation whose input path does not exist, regardless
of all other flags, the run is exactly one error print to standard error
on the original streams, mentioning the path, with exit code 1 — in
particular no import of the host bindings and no host API call occurs. -/
theorem missing_input_file (env : Env) (r : RawArgs)
    (h : ¬ pathExists env r.input_file) :
    runScript env r =
      ([Ev.printEv origStreams true
          ("Error: Input file '" ++ r.input_file ++ "' does not exist.")], 1) := by
  have h' : ¬ pathExists env (parse_arguments r).input_file := h
  unfold runScript pyMain
  rw [if_pos h']
  rfl

/-- Witness for C4 at a concrete input. -/
theorem missing_input_file_witness :
    runScript ⟨[], none, none, none, none, none, none⟩
        ⟨"ghost.FCStd", none, "", "", false⟩ =
      ([Ev.printEv origStreams true
          ("Error: Input file '" ++ "ghost.FCStd" ++ "' does not exist.")], 1) :=
  missing_input_file _ _ (by decide)

/-- C7: the `--freecad-lib-path` and `--freecad-mod-path` options have no
effect on behaviour: two invocations differing only in those two values
produce the same trace (prints, filesystem effects, host API calls) and
the same exit code.  The call to `setup_freecad_paths` is commented out
in the source. -/
theorem path_options_no_effect (env : Env) (i : String) (o : Option String)
    (l₁ m₁ l₂ m₂ : String) (q : Bool) :
    runScript env ⟨i, o, l₁, m₁, q⟩ = runScript env ⟨i, o, l₂, m₂, q⟩ := rfl

/-- C9: for every invocation with an existing input file in which the
FreeCAD module import raises, the run reports the error on standard
error and exits with code 1. -/
theorem import_failure_reports (env : Env) (r : RawArgs) (e : String)
    (hin : pathExists env r.input_file) (himp : env.importErr = some e) :
    runScript env r =
      (checksEvs env (parse_arguments r) ++
        [Ev.importModsEv,
         Ev.printEv origStreams true ("Error: Could not import FreeCAD modules: " ++ e),
         Ev.printEv origStreams true
           "Please ensure FreeCAD is installed and paths are correct."], 1) := by
  have hin' : ¬¬ pathExists env (parse_arguments r).input_file := not_not_intro hin
  unfold runScript pyMain
  rw [if_neg hin', himp]
  simp [List.append_assoc]

/-- C1: for every invocation in which an exception is raised inside the
main try block (after a successful module import), the run ends with the
error message printed while both streams are the original ones, the print
targets standard error, and the exit code is 1. -/
theorem exception_reported_on_orig_streams (env : Env) (r : RawArgs)
    (hin : pathExists env r.input_file) (himp : env.importErr = none)
    (htry : tryRaises env) :
    ∃ pre e, runScript env r =
      (pre ++ [Ev.printEv origStreams true ("Error processing file: " ++ e)], 1) := by
  have hin' : ¬¬ pathExists env (parse_arguments r).input_file := not_not_intro hin
  unfold runScript pyMain
  cases hs : env.showErr with
  | some e =>
    refine ⟨checksEvs env (parse_arguments r) ++ [Ev.importModsEv] ++
      redirEvs (parse_arguments r).quiet ++
      [Ev.showMainWindowEv, Ev.restoreEv], e, ?_⟩
    rw [if_neg hin', himp]
    simp [List.append_assoc]
  | none =>
    cases ho : env.openErr with
    | some e =>
      refine ⟨checksEvs env (parse_arguments r) ++ [Ev.importModsEv] ++
        redirEvs (parse_arguments r).quiet ++
        [Ev.showMainWindowEv, Ev.openDocumentEv (parse_arguments r).input_file,
         Ev.restoreEv], e, ?_⟩
      rw [if_neg hin', himp]
      simp [List.append_assoc]
    | none =>
      cases hv : env.viewErr with
      | some e =>
        refine ⟨checksEvs env (parse_arguments r) ++ [Ev.importModsEv] ++
          redirEvs (parse_arguments r).quiet ++
          [Ev.showMainWindowEv, Ev.openDocumentEv (parse_arguments r).input_file,
           Ev.restoreEv, Ev.activeViewEv, Ev.restoreEv], e, ?_⟩
        rw [if_neg hin', himp]
        simp [List.append_assoc]
      | none =>
        cases hf : env.fitErr with
        | some e =>
          refine ⟨checksEvs env (parse_arguments r) ++ [Ev.importModsEv] ++
            redirEvs (parse_arguments r).quiet ++
            [Ev.showMainWindowEv, Ev.openDocumentEv (parse_arguments r).input_file,
             Ev.restoreEv, Ev.activeViewEv, Ev.fitAllEv, Ev.restoreEv], e, ?_⟩
          rw [if_neg hin', himp]
          simp [List.append_assoc]
        | none =>
          cases hsv : env.saveErr with
          | some e =>
            refine ⟨checksEvs env (parse_arguments r) ++ [Ev.importModsEv] ++
              redirEvs (parse_arguments r).quiet ++
              [Ev.showMainWindowEv, Ev.openDocumentEv (parse_arguments r).input_file,
               Ev.restoreEv, Ev.activeViewEv, Ev.fitAllEv,
               Ev.saveImageEv (parse_arguments r).output 1080 1080 "Transparent",
               Ev.restoreEv], e, ?_⟩
            rw [if_neg hin', himp]
            simp [List.append_assoc]
          | none =>
            exfalso
            rcases htry with h | h | h | h | h
            exacts [h hs, h ho, h hv, h hf, h hsv]

/-- Witness for C1 at a concrete input (the openDocument call raises). -/
theorem exception_reported_on_orig_streams_witness :
    ∃ pre e,
      runScript ⟨["in.FCStd"], none, none, some "open failed", none, none, none⟩
          ⟨"in.FCStd", none, "", "", true⟩ =
        (pre ++ [Ev.printEv origStreams true ("Error processing file: " ++ e)], 1) :=
  exception_reported_on_orig_streams _ _ (by decide) rfl
    (Or.inr (Or.inl (by decide)))

/-- C2: for every quiet invocation that gets past the module import, the
redirection event immediately precedes the main-window show, the document
open immediately follows it, the streams are restored immediately after
the open returns and before the active view is accessed, the events
before the redirection contain no stream change and no view access, and
no redirection ever happens again. -/
theorem quiet_redirection_span (env : Env) (r : RawArgs)
    (hq : r.quiet = true) (hin : pathExists env r.input_file)
    (himp : env.importErr = none) (hshow : env.showErr = none)
    (hopen : env.openErr = none) :
    ∃ pre rest, (runScript env r).1 =
        pre ++ [Ev.redirectEv, Ev.showMainWindowEv,
          Ev.openDocumentEv r.input_file, Ev.restoreEv] ++ rest ∧
      Ev.redirectEv ∉ pre ∧ Ev.restoreEv ∉ pre ∧ Ev.activeViewEv ∉ pre ∧
      Ev.redirectEv ∉ rest := by
  have hin' : ¬¬ pathExists env (parse_arguments r).input_file := not_not_intro hin
  have hq' : (parse_arguments r).quiet = true := hq
  have hpre : ∀ ev ∈ checksEvs env (parse_arguments r) ++ [Ev.importModsEv],
      (∃ msg, ev = Ev.printEv origStreams false msg) ∨
        (∃ d, ev = Ev.makedirsEv d) ∨ ev = Ev.importModsEv := by
    intro ev hm
    rcases List.mem_append.mp hm with h | h
    · rcases checksEvs_shape _ _ _ h with h1 | h1
      · exact Or.inl h1
      · exact Or.inr (Or.inl h1)
    · simp at h
      exact Or.inr (Or.inr h)
  have hpreR : Ev.redirectEv ∉ checksEvs env (parse_arguments r) ++ [Ev.importModsEv] := by
    intro hm
    rcases hpre _ hm with ⟨m, h⟩ | ⟨d, h⟩ | h <;> simp at h
  have hpreS : Ev.restoreEv ∉ checksEvs env (parse_arguments r) ++ [Ev.importModsEv] := by
    intro hm
    rcases hpre _ hm with ⟨m, h⟩ | ⟨d, h⟩ | h <;> simp at h
  have hpreA : Ev.activeViewEv ∉ checksEvs env (parse_arguments r) ++ [Ev.importModsEv] := by
    intro hm
    rcases hpre _ hm with ⟨m, h⟩ | ⟨d, h⟩ | h <;> simp at h
  unfold runScript pyMain
  cases hv : env.viewErr with
  | some e =>
    refine ⟨checksEvs env (parse_arguments r) ++ [Ev.importModsEv],
      [Ev.activeViewEv, Ev.restoreEv,
       Ev.printEv origStreams true ("Error processing file: " ++ e)],
      ?_, hpreR, hpreS, hpreA, by simp⟩
    rw [if_neg hin', himp, hshow, hopen]
    simp [parse_arguments, redirEvs, hq, hq', List.append_assoc]
  | none =>
    cases hf : env.fitErr with
    | some e =>
      refine ⟨checksEvs env (parse_arguments r) ++ [Ev.importModsEv],
        [Ev.activeViewEv, Ev.fitAllEv, Ev.restoreEv,
         Ev.printEv origStreams true ("Error processing file: " ++ e)],
        ?_, hpreR, hpreS, hpreA, by simp⟩
      rw [if_neg hin', himp, hshow, hopen]
      simp [parse_arguments, redirEvs, hq, hq', List.append_assoc]
    | none =>
      cases hsv : env.saveErr with
      | some e =>
        refine ⟨checksEvs env (parse_arguments r) ++ [Ev.importModsEv],
          [Ev.activeViewEv, Ev.fitAllEv,
           Ev.saveImageEv (parse_arguments r).output 1080 1080 "Transparent",
           Ev.restoreEv,
           Ev.printEv origStreams true ("Error processing file: " ++ e)],
          ?_, hpreR, hpreS, hpreA, by simp⟩
        rw [if_neg hin', himp, hshow, hopen]
        simp [parse_arguments, redirEvs, hq, hq', List.append_assoc]
      | none =>
        refine ⟨checksEvs env (parse_arguments r) ++ [Ev.importModsEv],
          [Ev.activeViewEv, Ev.fitAllEv,
           Ev.saveImageEv (parse_arguments r).output 1080 1080 "Transparent",
           Ev.printEv origStreams false
             ("Successfully saved screenshot to: " ++ (parse_arguments r).output)],
          ?_, hpreR, hpreS, hpreA, by simp⟩
        rw [if_neg hin', himp, hshow, hopen]
        simp [parse_arguments, redirEvs, hq, hq', List.append_assoc]

/-- Witness for C2 at a concrete input. -/
theorem quiet_redirection_span_witness :
    ∃ pre rest,
      (runScript ⟨["in.FCStd"], none, none, none, none, none, none⟩
          ⟨"in.FCStd", none, "", "", true⟩).1 =
        pre ++ [Ev.redirectEv, Ev.showMainWindowEv,
          Ev.openDocumentEv "in.FCStd", Ev.restoreEv] ++ rest ∧
      Ev.redirectEv ∉ pre ∧ Ev.restoreEv ∉ pre ∧ Ev.activeViewEv ∉ pre ∧
      Ev.redirectEv ∉ rest :=
  quiet_redirection_span _ _ rfl (by decide) rfl rfl rfl

/-- C5: for every invocation with an existing input in which no exception
is raised, the run exits with code 0 and the save-image operation is
invoked on the resolved output path with width 1080, height 1080 and the
Transparent background mode. -/
theorem success_saves_image (env : Env) (r : RawArgs)
    (hin : pathExists env r.input_file)
    (himp : env.importErr = none) (hshow : env.showErr = none)
    (hopen : env.openErr = none) (hview : env.viewErr = none)
    (hfit : env.fitErr = none) (hsave : env.saveErr = none) :
    (runScript env r).2 = 0 ∧
      Ev.saveImageEv (parse_arguments r).output 1080 1080 "Transparent" ∈
        (runScript env r).1 := by
  have hin' : ¬¬ pathExists env (parse_arguments r).input_file := not_not_intro hin
  unfold runScript pyMain
  rw [if_neg hin', himp, hshow, hopen, hview, hfit, hsave]
  constructor
  · simp
  · simp

/-- Witness for C5 at a concrete input. -/
theorem success_saves_image_witness :
    (runScript ⟨["in.FCStd"], none, none, none, none, none, none⟩
        ⟨"in.FCStd", none, "", "", false⟩).2 = 0 ∧
      Ev.saveImageEv
          (parse_arguments ⟨"in.FCStd", none, "", "", false⟩).output
          1080 1080 "Transparent" ∈
        (runScript ⟨["in.FCStd"], none, none, none, none, none, none⟩
          ⟨"in.FCStd", none, "", "", false⟩).1 :=
  success_saves_image _ _ (by decide) rfl rfl rfl rfl rfl rfl

/-- Witness for C9 at a concrete input. -/
theorem import_failure_reports_witness :
    runScript ⟨["in.FCStd"], some "nope", none, none, none, none, none⟩
        ⟨"in.FCStd", none, "", "", false⟩ =
      (checksEvs ⟨["in.FCStd"], some "nope", none, none, none, none, none⟩
          (parse_arguments ⟨"in.FCStd", none, "", "", false⟩) ++
        [Ev.importModsEv,
         Ev.printEv origStreams true ("Error: Could not import FreeCAD modules: " ++ "nope"),
         Ev.printEv origStreams true
           "Please ensure FreeCAD is installed and paths are correct."], 1) :=
  import_failure_reports _ _ _ (by decide) rfl

/-- C6 counterexample: the claim "exit 1 implies no other observable
filesystem effect" is false.  With an existing input `in.FCStd`, default
output `production/in.png`, a missing `production` directory and a failing
FreeCAD import, the run exits 1 yet `os.makedirs('production')` was
invoked (the directory is created before the import is attempted), and no
save-image call appears in the trace. -/
theorem no_partial_state_cex :
    (runScript ⟨["in.FCStd"], some "boom", none, none, none, none, none⟩
        ⟨"in.FCStd", none, "lib", "mod", false⟩).2 = 1 ∧
      Ev.makedirsEv "production" ∈
        (runScript ⟨["in.FCStd"], some "boom", none, none, none, none, none⟩
          ⟨"in.FCStd", none, "lib", "mod", false⟩).1 ∧
      runScript ⟨["in.FCStd"], some "boom", none, none, none, none, none⟩
          ⟨"in.FCStd", none, "lib", "mod", false⟩ =
        ([Ev.makedirsEv "production", Ev.importModsEv,
          Ev.printEv origStreams true
            ("Error: Could not import FreeCAD modules: " ++ "boom"),
          Ev.printEv origStreams true
            "Please ensure FreeCAD is installed and paths are correct."], 1) := by
  refine ⟨rfl, ?_, rfl⟩
  simp [runScript, pyMain, parse_arguments, checksEvs, warnEvs, mkdirEvs]
  decide

/-- C6 amended: every run either exits 0 with the save-image call invoked
on the resolved output path, or exits 1 with the failure reported as the
final event, a print to standard error on the original streams.  (The
original claim's "no other observable filesystem effect" on the failure
path is dropped: the output directory may already have been created, as
the counterexample shows.) -/
theorem run_outcome_dichotomy (env : Env) (r : RawArgs) :
    ((runScript env r).2 = 0 ∧
        Ev.saveImageEv (parse_arguments r).output 1080 1080 "Transparent" ∈
          (runScript env r).1) ∨
      ((runScript env r).2 = 1 ∧
        ∃ pre msg, (runScript env r).1 =
          pre ++ [Ev.printEv origStreams true msg]) := by
  by_cases hex : pathExists env (parse_arguments r).input_file
  · unfold runScript pyMain
    rw [if_neg (not_not_intro hex)]
    cases hi : env.importErr with
    | some e =>
      refine Or.inr ⟨by simp, checksEvs env (parse_arguments r) ++
        [Ev.importModsEv,
         Ev.printEv origStreams true
           ("Error: Could not import FreeCAD modules: " ++ e)],
        "Please ensure FreeCAD is installed and paths are correct.", ?_⟩
      simp [List.append_assoc]
    | none =>
      cases hs : env.showErr with
      | some e =>
        refine Or.inr ⟨by simp, checksEvs env (parse_arguments r) ++
          [Ev.importModsEv] ++ redirEvs (parse_arguments r).quiet ++
          [Ev.showMainWindowEv, Ev.restoreEv],
          "Error processing file: " ++ e, ?_⟩
        simp [List.append_assoc]
      | none =>
        cases ho : env.openErr with
        | some e =>
          refine Or.inr ⟨by simp, checksEvs env (parse_arguments r) ++
            [Ev.importModsEv] ++ redirEvs (parse_arguments r).quiet ++
            [Ev.showMainWindowEv,
             Ev.openDocumentEv (parse_arguments r).input_file, Ev.restoreEv],
            "Error processing file: " ++ e, ?_⟩
          simp [List.append_assoc]
        | none =>
          cases hv : env.viewErr with
          | some e =>
            refine Or.inr ⟨by simp, checksEvs env (parse_arguments r) ++
              [Ev.importModsEv] ++ redirEvs (parse_arguments r).quiet ++
              [Ev.showMainWindowEv,
               Ev.openDocumentEv (parse_arguments r).input_file, Ev.restoreEv,
               Ev.activeViewEv, Ev.restoreEv],
              "Error processing file: " ++ e, ?_⟩
            simp [List.append_assoc]
          | none =>
            cases hf : env.fitErr with
            | some e =>
              refine Or.inr ⟨by simp, checksEvs env (parse_arguments r) ++
                [Ev.importModsEv] ++ redirEvs (parse_arguments r).quiet ++
                [Ev.showMainWindowEv,
                 Ev.openDocumentEv (parse_arguments r).input_file, Ev.restoreEv,
                 Ev.activeViewEv, Ev.fitAllEv, Ev.restoreEv],
                "Error processing file: " ++ e, ?_⟩
              simp [List.append_assoc]
            | none =>
              cases hsv : env.saveErr with
              | some e =>
                refine Or.inr ⟨by simp, checksEvs env (parse_arguments r) ++
                  [Ev.importModsEv] ++ redirEvs (parse_arguments r).quiet ++
                  [Ev.showMainWindowEv,
                   Ev.openDocumentEv (parse_arguments r).input_file, Ev.restoreEv,
                   Ev.activeViewEv, Ev.fitAllEv,
                   Ev.saveImageEv (parse_arguments r).output 1080 1080 "Transparent",
                   Ev.restoreEv],
                  "Error processing file: " ++ e, ?_⟩
                simp [List.append_assoc]
              | none =>
                refine Or.inl ⟨by simp, ?_⟩
                simp
  · right
    have h2 := pyMain_not_exists env (parse_arguments r) hex
    refine ⟨?_, [], "Error: Input file '" ++ (parse_arguments r).input_file ++
      "' does not exist.", ?_⟩
    · exact congrArg Prod.snd h2
    · have ht : (runScript env r).1 =
          [Ev.printEv origStreams true
            ("Error: Input file '" ++ (parse_arguments r).input_file ++
              "' does not exist.")] := congrArg Prod.fst h2
      rw [ht]
      simp

/-- C8: for every invocation with an existing input whose resolved output
path has a non-empty directory component that does not exist, that
directory is created, and every save-image call of the run comes after
the creation. -/
theorem dir_created_before_save (env : Env) (r : RawArgs)
    (hin : pathExists env r.input_file)
    (hd : dirname (parse_arguments r).output ≠ "")
    (hnex : ¬ pathExists env (dirname (parse_arguments r).output)) :
    ∃ pre post, (runScript env r).1 =
        pre ++ Ev.makedirsEv (dirname (parse_arguments r).output) :: post ∧
      ∀ p w h bg, Ev.saveImageEv p w h bg ∉ pre := by
  obtain ⟨k, hk, -⟩ := pyMain_trace_split env (parse_arguments r) hin
  refine ⟨warnEvs (parse_arguments r), Ev.importModsEv :: k, ?_, ?_⟩
  · have hk' : (runScript env r).1 =
        checksEvs env (parse_arguments r) ++ Ev.importModsEv :: k := hk
    rw [hk', checksEvs_with_dir env _ hd hnex]
    simp
  · intro p w h bg hmem
    obtain ⟨msg, hmsg⟩ := warnEvs_shape _ _ hmem
    simp at hmsg

/-- Witness for C8 at a concrete input. -/
theorem dir_created_before_save_witness :
    ∃ pre post,
      (runScript ⟨["in.FCStd"], none, none, none, none, none, none⟩
          ⟨"in.FCStd", none, "", "", false⟩).1 =
        pre ++ Ev.makedirsEv
            (dirname (parse_arguments ⟨"in.FCStd", none, "", "", false⟩).output)
          :: post ∧
      ∀ p w h bg, Ev.saveImageEv p w h bg ∉ pre :=
  dir_created_before_save _ _ (by decide) (by decide) (by decide)

/-- C10: for every invocation whose resolved output path has no directory
component (its dirname is empty), no `os.makedirs` call occurs at all,
and — whenever the input file exists — processing continues past the
directory step to the module import. -/
theorem bare_output_skips_makedirs (env : Env) (r : RawArgs)
    (hd : dirname (parse_arguments r).output = "") :
    (∀ d, Ev.makedirsEv d ∉ (runScript env r).1) ∧
      (pathExists env r.input_file → Ev.importModsEv ∈ (runScript env r).1) := by
  constructor
  · intro d hmem
    by_cases hex : pathExists env (parse_arguments r).input_file
    · obtain ⟨k, hk, hnomk⟩ := pyMain_trace_split env (parse_arguments r) hex
      have hk' : (runScript env r).1 =
          checksEvs env (parse_arguments r) ++ Ev.importModsEv :: k := hk
      rw [hk'] at hmem
      rcases List.mem_append.mp hmem with h | h
      · unfold checksEvs at h
        rw [hd, mkdirEvs_empty_dir, List.append_nil] at h
        obtain ⟨msg, hmsg⟩ := warnEvs_shape _ _ h
        simp at hmsg
      · rcases List.mem_cons.mp h with h1 | h1
        · simp at h1
        · exact hnomk d h1
    · have h2 := pyMain_not_exists env (parse_arguments r) hex
      have ht : (runScript env r).1 =
          [Ev.printEv origStreams true
            ("Error: Input file '" ++ (parse_arguments r).input_file ++
              "' does not exist.")] := congrArg Prod.fst h2
      rw [ht] at hmem
      simp at hmem
  · intro hex
    obtain ⟨k, hk, -⟩ := pyMain_trace_split env (parse_arguments r) hex
    have hk' : (runScript env r).1 =
        checksEvs env (parse_arguments r) ++ Ev.importModsEv :: k := hk
    rw [hk']
    simp

/-- Witness for C10 at a concrete input (explicit bare output path). -/
theorem bare_output_skips_makedirs_witness :
    Ev.makedirsEv "production" ∉
      (runScript ⟨["in.FCStd"], none, none, none, none, none, none⟩
        ⟨"in.FCStd", some "bare.png", "", "", false⟩).1 ∧
    Ev.importModsEv ∈
      (runScript ⟨["in.FCStd"], none, none, none, none, none, none⟩
        ⟨"in.FCStd", some "bare.png", "", "", false⟩).1 :=
  ⟨(bare_output_skips_makedirs
      ⟨["in.FCStd"], none, none, none, none, none, none⟩
      ⟨"in.FCStd", some "bare.png", "", "", false⟩ (by decide)).1 "production",
   (bare_output_skips_makedirs
      ⟨["in.FCStd"], none, none, none, none, none, none⟩
      ⟨"in.FCStd", some "bare.png", "", "", false⟩ (by decide)).2 (by decide)⟩

end FreecadToPng
